import Mathlib

/-!
Verification development for the ShutterCalculatorTable program (src/main.cpp).

The program is embedded shallowly: the C++ `double` duration values are modelled
as exact rationals (ℚ); every arithmetic operation the program performs on them
(division of integers, multiplication by a power of two, addition of an integer
and tenths, comparison against the constants 0.25 and 30.0, floor, ceil, round)
is exact on the concrete data involved, so the rational model agrees with the
binary floating-point evaluation on every value the claims touch.  C++ `int`
values are modelled as ℤ (or ℕ for shift counts, see `Shutter.applyStops`);
`std::string` as `String`.
-/

/- Batteries marks the core rational arithmetic operations `@[irreducible]`,
which prevents the `decide` tactic from evaluating concrete rational
expressions.  Restore the default reducibility inside this file; this changes
nothing about the definitions themselves. -/
attribute [local semireducible] Rat.mul Rat.add Rat.sub Rat.inv

namespace ShutterCalc

/-- The double-quote character (ASCII 34) used by the formatter as the seconds
mark, kept out of string literals for clarity. -/
def dq : Char := Char.ofNat 34

/-- The single-quote character (ASCII 39) used by the formatter as the minutes
mark. -/
def sq : Char := Char.ofNat 39

/-- `dq` as a one-character string. -/
def dqS : String := String.singleton dq

/-- `sq` as a one-character string. -/
def sqS : String := String.singleton sq

/-- Right-justify `s` in a field of width `w`, filling with `c` on the left.
Models the std::format width specifier for right-aligned values such as
integers: the output keeps `s` unchanged when it is already at least `w`
characters wide. -/
def padLeft (w : Nat) (c : Char) (s : String) : String :=
  String.mk (List.replicate (w - s.length) c) ++ s

/-- std::round followed by a cast to int: round half away from zero.  All call
sites in the program pass a non-negative argument, where this is
`⌊q + 1/2⌋`. -/
def rnd (q : ℚ) : ℤ := if 0 ≤ q then ⌊q + 1/2⌋ else -⌊-q + 1/2⌋

/-- C++ `struct Filter` (src/main.cpp lines 11-29): a stop count (`int`) and a
display name. -/
structure Filter where
  stops : ℤ
  name : String
deriving DecidableEq

/-- `Filter::operator+` (src/main.cpp lines 19-24): stops are summed, names are
joined by a single space in argument order. -/
def Filter.add (a b : Filter) : Filter :=
  { stops := a.stops + b.stops, name := a.name ++ " " ++ b.name }

instance : Add Filter := ⟨Filter.add⟩

/-- `Filter::toString` (src/main.cpp lines 26-28): the name right-justified in
a 7-wide field. -/
def Filter.toString (f : Filter) : String := padLeft 7 ' ' f.name

/-- C++ `struct Shutter` (src/main.cpp lines 31-87): a duration in seconds. -/
structure Shutter where
  time : ℚ
deriving DecidableEq

/-- The `Shutter(int initFraction)` constructor: `time = 1.0 / initFraction`. -/
def Shutter.ofFraction (initFraction : ℤ) : Shutter :=
  ⟨1 / (initFraction : ℚ)⟩

/-- The `Shutter(int initSeconds, int initHundredsMiliseconds)` constructor:
`time = initSeconds + initHundredsMiliseconds / 10.0`. -/
def Shutter.ofSecondsTenths (initSeconds initHundredsMiliseconds : ℤ) : Shutter :=
  ⟨(initSeconds : ℚ) + (initHundredsMiliseconds : ℚ) / 10⟩

/-- `Shutter::doubleToString` (src/main.cpp lines 53-86), the duration
formatter.  The integer divisions `/ 60` and remainders `% 60` are applied to
`secondTotal = ceil(input) ≥ 31 > 0` only, where the C++ (truncating) and Lean
conventions agree.  The final `std::format("{:7}", 'x')` left-justifies the
character (the std::format default for chars), producing `x` followed by six
spaces. -/
def doubleToString (input : ℚ) : String :=
  if input ≤ 1/4 then
    -- Regular fraction format 1/x is used upto 1s/4
    padLeft 7 ' ' (ToString.toString (rnd (1 / input)))
  else if input ≤ 30 then
    -- Regular s"ms format used between 1s/4 and 30s
    let second : ℤ := ⌊input⌋
    let leftOver : ℤ := rnd ((input - (second : ℚ)) * 10)
    padLeft 5 ' ' (ToString.toString second) ++ dqS ++ ToString.toString leftOver
  else
    -- It is longer than 30 seconds, need to use BULB mode format
    let secondTotal : ℤ := ⌈input⌉
    let minutesTotal : ℤ := secondTotal / 60
    let seconds : ℤ := secondTotal % 60
    if minutesTotal ≤ 60 then
      -- under 1h: do not display hours yet
      padLeft 2 ' ' (ToString.toString minutesTotal) ++ sqS ++ " " ++
        padLeft 2 '0' (ToString.toString seconds) ++ dqS
    else
      -- over 60mins
      let hours : ℤ := minutesTotal / 60
      let minutes : ℤ := minutesTotal % 60
      if 99 < hours then
        -- camera cannot record longer than 99h in BULB mode
        String.singleton 'x' ++ String.mk (List.replicate 6 ' ')
      else
        -- BULB hours and minutes (seconds omitted)
        padLeft 2 ' ' (ToString.toString hours) ++ "h " ++
          padLeft 2 '0' (ToString.toString minutes) ++ sqS

/-- The duration produced inside `Shutter::toStringWithFilterStops`
(src/main.cpp line 44): `time * (1 << stops)`.  The shift count is taken as ℕ;
for `stops ≤ 30` this matches the C++ 32-bit `1 << stops` exactly (beyond 30
the C++ shift would overflow, which no call site reaches: the largest combined
filter has 18 stops). -/
def Shutter.applyStops (s : Shutter) (stops : ℕ) : ℚ :=
  s.time * ((1 <<< stops : ℕ) : ℚ)

/-- `Shutter::toStringWithFilterStops` (src/main.cpp lines 42-46). -/
def Shutter.toStringWithFilterStops (s : Shutter) (stops : ℕ) : String :=
  doubleToString (s.applyStops stops)

/-- `Shutter::toString` (src/main.cpp lines 48-50). -/
def Shutter.toString (s : Shutter) : String := doubleToString s.time

/-- The curated filter array (src/main.cpp lines 90-95). -/
def filters : List Filter :=
  [⟨10, "1k"⟩, ⟨6, "64"⟩, ⟨3, "8"⟩, ⟨2, "4"⟩]

/-- `filters[i]`; every use site is in range, the default is never taken. -/
def fIdx (i : ℕ) : Filter := filters.getD i ⟨0, ""⟩

/-- The fixed shutter-speed table (src/main.cpp lines 101-160): 31
fraction-based entries followed by 21 decimal-second entries, 52 in total (the
three extreme entries 1/8000, 1/6400, 1/5000 are commented out in the
source). -/
def shutters : List Shutter :=
  [Shutter.ofFraction 4000, Shutter.ofFraction 3200, Shutter.ofFraction 2500,
   Shutter.ofFraction 2000, Shutter.ofFraction 1600, Shutter.ofFraction 1250,
   Shutter.ofFraction 1000, Shutter.ofFraction 800, Shutter.ofFraction 640,
   Shutter.ofFraction 500, Shutter.ofFraction 400, Shutter.ofFraction 320,
   Shutter.ofFraction 250, Shutter.ofFraction 200, Shutter.ofFraction 160,
   Shutter.ofFraction 125, Shutter.ofFraction 100, Shutter.ofFraction 80,
   Shutter.ofFraction 60, Shutter.ofFraction 50, Shutter.ofFraction 40,
   Shutter.ofFraction 30, Shutter.ofFraction 25, Shutter.ofFraction 20,
   Shutter.ofFraction 15, Shutter.ofFraction 13, Shutter.ofFraction 10,
   Shutter.ofFraction 8, Shutter.ofFraction 6, Shutter.ofFraction 5,
   Shutter.ofFraction 4,
   Shutter.ofSecondsTenths 0 3, Shutter.ofSecondsTenths 0 4,
   Shutter.ofSecondsTenths 0 5, Shutter.ofSecondsTenths 0 6,
   Shutter.ofSecondsTenths 0 8, Shutter.ofSecondsTenths 1 0,
   Shutter.ofSecondsTenths 1 3, Shutter.ofSecondsTenths 1 6,
   Shutter.ofSecondsTenths 2 0, Shutter.ofSecondsTenths 2 5,
   Shutter.ofSecondsTenths 3 2, Shutter.ofSecondsTenths 4 0,
   Shutter.ofSecondsTenths 5 0, Shutter.ofSecondsTenths 6 0,
   Shutter.ofSecondsTenths 8 0, Shutter.ofSecondsTenths 10 0,
   Shutter.ofSecondsTenths 13 0, Shutter.ofSecondsTenths 15 0,
   Shutter.ofSecondsTenths 20 0, Shutter.ofSecondsTenths 25 0,
   Shutter.ofSecondsTenths 30 0]

/-- `populateFiltersWithGeneratedCombinations` (src/main.cpp lines 184-212):
every single filter, then every pair `filters[i] + filters[j]` for `i < j`,
in the order of the two nested loops with literal bound 4 (the outer loop runs
`i = 0, 1, 2`; the triple and quadruple loops in the source are commented
out). -/
def populateFiltersWithGeneratedCombinations : List Filter :=
  filters ++
    (List.range 3).flatMap fun i =>
      ((List.range 4).filter fun j => i < j).map fun j => fIdx i + fIdx j

/-- `populateFiltersWithHandPickedCombinations` (src/main.cpp lines 162-182):
the two hand-picked triples `filters[0]+filters[1]+filters[3]` and
`filters[0]+filters[2]+filters[3]`. -/
def populateFiltersWithHandPickedCombinations : List Filter :=
  [fIdx 0 + fIdx 1 + fIdx 3, fIdx 0 + fIdx 2 + fIdx 3]

/-- Contents of the global `combinedFilters` vector after `main` has run both
populate functions (src/main.cpp lines 285-286): the generated combinations are
pushed first, then the two hand-picked triples. -/
def combinedFilters : List Filter :=
  populateFiltersWithGeneratedCombinations ++ populateFiltersWithHandPickedCombinations

/-- Claim C1: the duration formatter selects among its magnitude bands with
boundaries inclusive on the lower branch: `format(0.25)` takes the fraction
branch and returns `      4`; `format(30.0)` takes the seconds branch and
returns `   30"0`; `format(30.1)` takes the BULB sub-hour branch and returns
` 0' 31"`; `format(3661)` takes the over-60-minutes branch and returns
` 1h 01'` with seconds omitted. -/
theorem C1_format_boundaries :
    doubleToString (1/4) = "      4" ∧
    doubleToString 30 = "   30" ++ dqS ++ "0" ∧
    doubleToString (301/10) = " 0" ++ sqS ++ " 31" ++ dqS ∧
    doubleToString 3661 = " 1h 01" ++ sqS := by
  decide

/-- Claim C5: for all filter values `a` and `b`, `a + b` has stops
`a.stops + b.stops` and name `a.name`, a single space, then `b.name` in
call-argument order; the stop count is symmetric in the arguments, while the
name in general is not (witnessed by the first two curated filters). -/
theorem C5_combine :
    (∀ a b : Filter,
      (a + b).stops = a.stops + b.stops ∧
      (a + b).name = a.name ++ " " ++ b.name ∧
      (a + b).stops = (b + a).stops) ∧
    ∃ a b : Filter, (a + b).name ≠ (b + a).name := by
  refine ⟨fun a b => ⟨rfl, rfl, add_comm a.stops b.stops⟩, ⟨10, "1k"⟩, ⟨6, "64"⟩, ?_⟩
  decide

/-- Claim C7: after both populate functions have run, the combined-filter list
holds exactly 12 combinations: the 4 individual filters unchanged, the 6
index-ordered pairs, and the two hand-picked triples
`filters[0]+filters[1]+filters[3]` and `filters[0]+filters[2]+filters[3]`. -/
theorem C7_combinations :
    combinedFilters =
      ([⟨10, "1k"⟩, ⟨6, "64"⟩, ⟨3, "8"⟩, ⟨2, "4"⟩,
        ⟨16, "1k 64"⟩, ⟨13, "1k 8"⟩, ⟨12, "1k 4"⟩,
        ⟨9, "64 8"⟩, ⟨8, "64 4"⟩, ⟨5, "8 4"⟩,
        ⟨18, "1k 64 4"⟩, ⟨15, "1k 8 4"⟩] : List Filter) ∧
    combinedFilters.length = 12 := by
  constructor
  · decide
  · decide

/-- Claim C9 counterexample: the shutter table defined in the source holds 52
entries, not the 36 the claim states. -/
theorem C9_counterexample : shutters.length = 52 ∧ shutters.length ≠ 36 := by
  constructor
  · decide
  · decide

/-- Claim C9 (amended): the fixed shutter-speed table defined at startup
contains exactly 52 ExposureTime values (55 entries minus the three
commented-out extreme ones); immutability holds because the array is a
`constexpr` constant, which the embedding reflects as a plain definition. -/
theorem C9_shutter_count : shutters.length = 52 := by decide

/-- Number of shutter speeds (`shutters.size()` in `displayCsvTable`,
src/main.cpp line 269). -/
def shuttersCount : ℕ := shutters.length

/-- The header-repetition period of the CSV table (src/main.cpp line 270). -/
def middle : ℕ := shuttersCount / 2

/-- The emission sequence of `displayCsvTable` (src/main.cpp lines 268-280):
for each row index `i` in order, a header (`none`) is emitted first whenever
`i % middle = 0`, then the row itself (`some i`). -/
def csvTableEvents : List (Option ℕ) :=
  (List.range shuttersCount).flatMap fun i =>
    (if i % middle = 0 then [none] else []) ++ [some i]

/-- Claim C8: in the CSV table the header row is emitted exactly twice:
immediately before row 0 and immediately before row `⌊N/2⌋ = 26` of the
52-row shutter list, and at no other position. -/
theorem C8_csv_header_positions :
    csvTableEvents.count none = 2 ∧
    shuttersCount / 2 = 26 ∧
    csvTableEvents =
      [none] ++ ((List.range 26).map some) ++
      [none] ++ ((List.range 26).map fun i => some (26 + i)) := by
  refine ⟨?_, ?_, ?_⟩ <;> decide

/-- Claim C10 (implicit): for every shutter in the fixed table and every stop
count arising from the combined-filter list — including `0` for the `no ND`
column, whose cells `Shutter::toString` produces — the formatted duration is
exactly 7 characters long, and so is every combined filter's header label, so
every cell of both rendered tables has uniform width 7. -/
theorem C10_cell_width :
    (shutters.all fun s =>
      ((s.toString.length == 7) &&
        ((0 :: combinedFilters.map fun f => f.stops.toNat).all fun n =>
          ((s.toStringWithFilterStops n).length == 7)))) = true ∧
    (combinedFilters.all fun f => f.toString.length == 7) = true := by
  constructor
  · decide
  · decide

/-- Claim C3: for every shutter value `d` and stop counts `n ≤ m ≤ 30` (the
range in which the C++ `1 << stops` is exact), the duration `applyStops`
produces — and `toStringWithFilterStops` formats — equals `d.time * 2^n`, and
for a non-negative shutter time (true of every entry of the table) the duration
is monotonically non-decreasing in the stop count. -/
theorem C3_applyStops (s : Shutter) (n m : ℕ) (hnm : n ≤ m) (_hm : m ≤ 30)
    (ht : 0 ≤ s.time) :
    s.applyStops n = s.time * 2 ^ n ∧
    s.toStringWithFilterStops n = doubleToString (s.time * 2 ^ n) ∧
    s.applyStops n ≤ s.applyStops m := by
  have key : ∀ k : ℕ, s.applyStops k = s.time * 2 ^ k := by
    intro k
    unfold Shutter.applyStops
    rw [Nat.one_shiftLeft]
    push_cast
    ring
  refine ⟨key n, ?_, ?_⟩
  · unfold Shutter.toStringWithFilterStops
    rw [key n]
  · rw [key n, key m]
    have h2 : (2:ℚ) ^ n ≤ 2 ^ m := pow_le_pow_right₀ (by norm_num) hnm
    exact mul_le_mul_of_nonneg_left h2 ht

/-- Witness for C3 at the 1/4-second shutter with 2 and 3 stops. -/
theorem C3_applyStops_witness :
    (Shutter.ofFraction 4).applyStops 2 = (Shutter.ofFraction 4).time * 2 ^ 2 ∧
    (Shutter.ofFraction 4).toStringWithFilterStops 2 =
      doubleToString ((Shutter.ofFraction 4).time * 2 ^ 2) ∧
    (Shutter.ofFraction 4).applyStops 2 ≤ (Shutter.ofFraction 4).applyStops 3 :=
  C3_applyStops (Shutter.ofFraction 4) 2 3 (by decide) (by decide) (by decide)

/-- Claim C4: when the computed hours exceed 99 the formatter does not fail:
it returns the ordinary 7-wide field holding the single marker character `x`
(left-justified, the std::format default for a char).  The formatter is a total
function in the embedding, so no other failure concept exists. -/
theorem C4_bulb_sentinel (input : ℚ) (h30 : ¬ input ≤ 30)
    (hmin : ¬ (⌈input⌉ / 60 ≤ 60)) (hh : 99 < ⌈input⌉ / 60 / 60) :
    doubleToString input = "x      " ∧ (doubleToString input).length = 7 := by
  have h14 : ¬ input ≤ 1/4 := fun h => h30 (h.trans (by norm_num))
  have hx : doubleToString input = "x      " := by
    simp only [doubleToString]
    rw [if_neg h14, if_neg h30, if_neg hmin, if_pos hh]
    decide
  exact ⟨hx, by rw [hx]; rfl⟩

/-- Witness for C4 at 360000 seconds, i.e. 100 hours. -/
theorem C4_bulb_sentinel_witness :
    doubleToString 360000 = "x      " ∧ (doubleToString 360000).length = 7 :=
  C4_bulb_sentinel 360000 (by decide) (by decide) (by decide)

/-- Claim C2 counterexample: at durationSeconds = 29.96 (inside the claimed
range, since 0.25 < 29.96 ≤ 30) the tenths value
`T = round((durationSeconds - floor(durationSeconds)) * 10) = round(9.6)` is
10, which is not a single decimal digit in 0..9. -/
theorem C2_counterexample :
    1/4 < (749:ℚ)/25 ∧ (749:ℚ)/25 ≤ 30 ∧
    rnd (((749:ℚ)/25 - (⌊(749:ℚ)/25⌋ : ℚ)) * 10) = 10 ∧
    ¬ rnd (((749:ℚ)/25 - (⌊(749:ℚ)/25⌋ : ℚ)) * 10) ≤ 9 := by
  refine ⟨by decide, by decide, by decide, by decide⟩

/-- Claim C2 (amended): for every durationSeconds in (0.25, 30] the formatter
returns `S = floor(durationSeconds)` padded to width 5, a double-quote
character, then `T = round((durationSeconds - S) * 10)`; `T` lies in 0..10 (it
is 10, printed as two digits, exactly when the fractional part is at least
0.95, and a single decimal digit otherwise). -/
theorem C2_seconds_branch (d : ℚ) (h1 : 1/4 < d) (h2 : d ≤ 30) :
    doubleToString d =
      padLeft 5 ' ' (ToString.toString ⌊d⌋) ++ dqS ++
        ToString.toString (rnd ((d - (⌊d⌋ : ℚ)) * 10)) ∧
    0 ≤ rnd ((d - (⌊d⌋ : ℚ)) * 10) ∧
    rnd ((d - (⌊d⌋ : ℚ)) * 10) ≤ 10 := by
  have h14 : ¬ d ≤ 1/4 := not_le.mpr h1
  have hfrac0 : (0:ℚ) ≤ d - (⌊d⌋ : ℚ) := by
    have := Int.floor_le d
    linarith
  have hfrac1 : d - (⌊d⌋ : ℚ) < 1 := by
    have := Int.lt_floor_add_one d
    linarith
  have hv0 : (0:ℚ) ≤ (d - (⌊d⌋ : ℚ)) * 10 := mul_nonneg hfrac0 (by norm_num)
  refine ⟨?_, ?_, ?_⟩
  · simp only [doubleToString]
    rw [if_neg h14, if_pos h2]
  · unfold rnd
    rw [if_pos hv0]
    refine Int.le_floor.mpr ?_
    push_cast
    linarith
  · unfold rnd
    rw [if_pos hv0]
    have h11 : ⌊(d - (⌊d⌋ : ℚ)) * 10 + 1/2⌋ < 11 := by
      refine Int.floor_lt.mpr ?_
      push_cast
      linarith
    omega

/-- Witness for C2 at durationSeconds = 3. -/
theorem C2_seconds_branch_witness :
    doubleToString 3 =
      padLeft 5 ' ' (ToString.toString ⌊(3:ℚ)⌋) ++ dqS ++
        ToString.toString (rnd (((3:ℚ) - (⌊(3:ℚ)⌋ : ℚ)) * 10)) ∧
    0 ≤ rnd (((3:ℚ) - (⌊(3:ℚ)⌋ : ℚ)) * 10) ∧
    rnd (((3:ℚ) - (⌊(3:ℚ)⌋ : ℚ)) * 10) ≤ 10 :=
  C2_seconds_branch 3 (by decide) (by decide)

/-- Contract of `sortFilters` (src/main.cpp lines 214-216).  The function runs
`std::sort` on `combinedFilters` with the ordering induced by
`Filter::operator<=>`, which compares by `stops` only.  The C++ standard
guarantees exactly this postcondition for std::sort — the output is a
permutation of the input that is sorted with respect to the comparator — and
nothing more; in particular std::sort is not a stable sort, so the relative
order of equal-stop elements in the output is unspecified. -/
def sortFiltersSpec (input output : List Filter) : Prop :=
  input.Perm output ∧ output.Sorted fun a b => a.stops ≤ b.stops

/-- A sorted permutation of a list whose stop counts are pairwise distinct is
unique: with no equal keys the comparator leaves no freedom. -/
theorem sorted_perm_nodup_eq (l₁ l₂ : List Filter) (hp : l₁.Perm l₂)
    (hs₁ : l₁.Sorted fun a b => a.stops ≤ b.stops)
    (hs₂ : l₂.Sorted fun a b => a.stops ≤ b.stops)
    (hnd : (l₁.map Filter.stops).Nodup) : l₁ = l₂ := by
  haveI : IsAntisymm Filter fun a b => a.stops < b.stops :=
    ⟨fun a b h₁ h₂ => absurd h₂ (not_lt.mpr h₁.le)⟩
  have hne₁ : l₁.Pairwise fun a b => a.stops ≠ b.stops := List.pairwise_map.mp hnd
  have hnd₂ : (l₂.map Filter.stops).Nodup := ((hp.map Filter.stops).nodup_iff).mp hnd
  have hne₂ : l₂.Pairwise fun a b => a.stops ≠ b.stops := List.pairwise_map.mp hnd₂
  have hlt₁ : l₁.Sorted fun a b => a.stops < b.stops :=
    (hs₁.and hne₁).imp fun h => lt_of_le_of_ne h.1 h.2
  have hlt₂ : l₂.Sorted fun a b => a.stops < b.stops :=
    (hs₂.and hne₂).imp fun h => lt_of_le_of_ne h.1 h.2
  exact List.eq_of_perm_of_sorted hp hlt₁ hlt₂

/-- The unique sorted arrangement of the 12 combined filters: their stop
counts 2, 3, 5, 6, 8, 9, 10, 12, 13, 15, 16, 18 are pairwise distinct. -/
def sortedCombinedFilters : List Filter :=
  [⟨2, "4"⟩, ⟨3, "8"⟩, ⟨5, "8 4"⟩, ⟨6, "64"⟩, ⟨8, "64 4"⟩, ⟨9, "64 8"⟩,
   ⟨10, "1k"⟩, ⟨12, "1k 4"⟩, ⟨13, "1k 8"⟩, ⟨15, "1k 8 4"⟩, ⟨16, "1k 64"⟩,
   ⟨18, "1k 64 4"⟩]

/-- Claim C6 counterexample: the sort the code performs is `std::sort`, whose
contract does not force stability.  For the already-sorted two-element input
`[⟨1, a⟩, ⟨1, b⟩]` of equal-stop filters, a stable sort must return the input
unchanged, yet the reversed output also satisfies everything the code
guarantees — so "entries with equal stop counts keep their original relative
order, for every input sequence" does not hold of the code. -/
theorem C6_counterexample :
    (Filter.mk 1 "a").stops = (Filter.mk 1 "b").stops ∧
    sortFiltersSpec [Filter.mk 1 "a", Filter.mk 1 "b"]
      [Filter.mk 1 "b", Filter.mk 1 "a"] ∧
    [Filter.mk 1 "b", Filter.mk 1 "a"] ≠ [Filter.mk 1 "a", Filter.mk 1 "b"] := by
  refine ⟨rfl, ⟨?_, ?_⟩, by decide⟩
  · decide
  · decide

/-- Claim C6 (amended): any output satisfying the std::sort contract on the
program's combined-filter list is non-decreasing in stops; stability is not
guaranteed by the code, but the actual 12 combinations have pairwise distinct
stop counts, so the sorted order is unique anyway and ties never arise. -/
theorem C6_sort_result (l : List Filter)
    (h : sortFiltersSpec combinedFilters l) :
    (l.Sorted fun a b => a.stops ≤ b.stops) ∧ l = sortedCombinedFilters := by
  obtain ⟨hp, hs⟩ := h
  refine ⟨hs, ?_⟩
  refine (sorted_perm_nodup_eq sortedCombinedFilters l ?_ ?_ hs ?_).symm
  · exact List.Perm.trans (by decide) hp
  · decide
  · decide

/-- Witness for C6: the explicit sorted list satisfies the sort contract. -/
theorem C6_sort_result_witness :
    (sortedCombinedFilters.Sorted fun a b => a.stops ≤ b.stops) ∧
    sortedCombinedFilters = sortedCombinedFilters :=
  C6_sort_result sortedCombinedFilters ⟨by decide, by decide⟩

end ShutterCalc
